import Mathlib

/-!
Verification development for the DIALS spot-finding pipeline
(src/algorithms/spot_finding/finder.py).

Panel images are total functions from (row, column) to a signal value,
with a parallel boolean validity mask.  Detector grids are likewise total
boolean functions; all indexing in the Python source is within range, so a
total-function model is faithful.  The max-strong-pixel fraction is a
Python float in the source; it is modelled as an exact rational.
-/

namespace SpotFinding

/-- One detector panel plane of a single frame: dimensions, signal data and
validity mask, indexed as (row y, column x) like the numpy arrays in the
source. -/
structure PanelData where
  height : Nat
  width : Nat
  image : Nat → Nat → Int
  mask : Nat → Nat → Bool

/-- A single frame: the ordered list of panel planes returned by
imageset.get_corrected_data / get_mask. -/
structure Frame where
  panels : List PanelData

/-- A pluggable thresholding strategy: given dimensions, image data and mask,
produce a boolean strong-pixel mask (ThresholdFunction.compute_threshold). -/
def ThresholdFn : Type := Nat → Nat → (Nat → Nat → Int) → (Nat → Nat → Bool) → Nat → Nat → Bool

/-- Configuration of ExtractPixelsFromImage: optional per-panel static mask,
optional region of interest (x0, x1, y0, y1), the maximum strong-pixel
fraction, and the threshold strategy. -/
structure ExtractConfig where
  staticMask : Option (List (Nat → Nat → Bool))
  regionOfInterest : Option (Nat × Nat × Nat × Nat)
  maxStrongPixelFraction : ℚ
  threshold : ThresholdFn

/-- Errors raised inside extraction: the ROI bound assertions, the
strong-pixel overflow guard, and the static-mask/panel-count assertions. -/
inductive ExtractError where
  | roiError
  | overflowError
  | maskSizeError
deriving DecidableEq, Repr

/-- The ROI bound assertions of ExtractPixelsFromImage.__call__
(x0 < x1, y0 < y1, x0 >= 0, y0 >= 0, x1 <= width, y1 <= height; the
non-negativity asserts are vacuous over Nat). -/
def roiValid (roi : Nat × Nat × Nat × Nat) (width height : Nat) : Bool :=
  decide (roi.1 < roi.2.1) && decide (roi.2.2.1 < roi.2.2.2) &&
  decide (roi.2.1 ≤ width) && decide (roi.2.2.2 ≤ height)

/-- Collect the coordinates (x, y) flagged true by a threshold mask over an
h × w panel; this is the pixel list built by PixelList(frame, im, mask). -/
def pixelsOf (h w : Nat) (tm : Nat → Nat → Bool) : List (Nat × Nat) :=
  (List.range h).flatMap fun y =>
    (List.range w).filterMap fun x => if tm y x then some (x, y) else none

/-- Per-panel body of the extraction loop: apply the ROI crop (placing the
threshold result back at the same offset, all other pixels unflagged) or
threshold the full panel, and return the panel's strong-pixel list. -/
def panelPixelList (cfg : ExtractConfig) (p : PanelData) (mk : Nat → Nat → Bool) :
    Except ExtractError (List (Nat × Nat)) :=
  match cfg.regionOfInterest with
  | some roi =>
      if roiValid roi p.width p.height then
        let x0 := roi.1
        let x1 := roi.2.1
        let y0 := roi.2.2.1
        let y1 := roi.2.2.2
        let tmRoi := cfg.threshold (y1 - y0) (x1 - x0)
          (fun y x => p.image (y0 + y) (x0 + x)) (fun y x => mk (y0 + y) (x0 + x))
        let tm := fun y x =>
          if y0 ≤ y ∧ y < y1 ∧ x0 ≤ x ∧ x < x1 then tmRoi (y - y0) (x - x0) else false
        Except.ok (pixelsOf p.height p.width tm)
      else Except.error ExtractError.roiError
  | none => Except.ok (pixelsOf p.height p.width (cfg.threshold p.height p.width p.image mk))

/-- Combine each panel's validity mask with the static mask when one is
configured (mask = tuple(m1 & m2 ...), guarded by the panel-count assert). -/
def combinedMasks (cfg : ExtractConfig) (fr : Frame) :
    Except ExtractError (List (Nat → Nat → Bool)) :=
  match cfg.staticMask with
  | none => Except.ok (fr.panels.map PanelData.mask)
  | some sm =>
      if sm.length = fr.panels.length then
        Except.ok (List.zipWith (fun p m => fun y x => p.mask y x && m y x) fr.panels sm)
      else Except.error ExtractError.maskSizeError

/-- Run the per-panel loop over the (panel, mask) pairs, collecting the
per-panel pixel lists and propagating the first failure. -/
def panelsPixels (cfg : ExtractConfig) : List (PanelData × (Nat → Nat → Bool)) →
    Except ExtractError (List (List (Nat × Nat)))
  | [] => Except.ok []
  | pm :: rest =>
    match panelPixelList cfg pm.1 pm.2 with
    | Except.error e => Except.error e
    | Except.ok l =>
      match panelsPixels cfg rest with
      | Except.error e => Except.error e
      | Except.ok ls => Except.ok (l :: ls)

/-- Total strong pixels found on this frame across all panels. -/
def numStrong (pls : List (List (Nat × Nat))) : Nat :=
  (pls.map List.length).sum

/-- Total pixel count of the image across all panels (num_image). -/
def numImage (fr : Frame) : Nat :=
  (fr.panels.map fun p => p.height * p.width).sum

/-- The threshold phase of ExtractPixelsFromImage.__call__: combine masks and
run the per-panel threshold loop, before the overflow guard. -/
def thresholdPhase (cfg : ExtractConfig) (fr : Frame) :
    Except ExtractError (List (List (Nat × Nat))) :=
  match combinedMasks cfg fr with
  | Except.error e => Except.error e
  | Except.ok ms => panelsPixels cfg (fr.panels.zip ms)

/-- ExtractPixelsFromImage.__call__: threshold every panel, then apply the
strong-pixel overflow guard — only evaluated when the fraction is below 1 —
comparing the strong-pixel total with ceil(fraction * total pixels). -/
def extractCall (cfg : ExtractConfig) (fr : Frame) :
    Except ExtractError (List (List (Nat × Nat))) :=
  match thresholdPhase cfg fr with
  | Except.error e => Except.error e
  | Except.ok pls =>
      if cfg.maxStrongPixelFraction < 1 then
        if (numStrong pls : ℤ) > ⌈cfg.maxStrongPixelFraction * (numImage fr : ℚ)⌉ then
          Except.error ExtractError.overflowError
        else Except.ok pls
      else Except.ok pls

/-- ExtractPixelsFromImage.__init__: the only validation performed at
construction time is the static-mask/detector panel-count assertion; the
region of interest is not inspected. -/
def extractInit (cfg : ExtractConfig) (numPanels : Nat) : Except ExtractError Unit :=
  match cfg.staticMask with
  | some m =>
      if m.length = numPanels then Except.ok () else Except.error ExtractError.maskSizeError
  | none => Except.ok ()

/-- In-frame 4-connectivity: two pixel coordinates share an edge in x or y. -/
def adj4 (a b : Nat × Nat) : Bool :=
  (a.1 = b.1 && (a.2 = b.2 + 1 || b.2 = a.2 + 1)) ||
  (a.2 = b.2 && (a.1 = b.1 + 1 || b.1 = a.1 + 1))

/-- Insert one pixel into a set of in-frame groups, merging every group it
touches (the incremental union step of the local union-find). -/
def insertCoord (c : Nat × Nat) (groups : List (List (Nat × Nat))) :
    List (List (Nat × Nat)) :=
  let part := groups.partition fun g => g.any fun d => adj4 c d
  (c :: part.1.flatten) :: part.2

/-- Modelled from the spec: step 1 of PixelListLabeller.add — partition this
frame's pixel list into 4-connected groups.  The labeller itself is in
dials.model.data (C++), not under src/. -/
def groupsOf (l : List (Nat × Nat)) : List (List (Nat × Nat)) :=
  l.foldl (fun gs c => insertCoord c gs) []

/-- Modelled from the spec: an in-progress 3D connected component — pixel
coordinates tagged with their frame, and the z-range seen so far. -/
structure Component where
  pixels : List (Nat × (Nat × Nat))
  zmin : Nat
  zmax : Nat
deriving DecidableEq, Repr

/-- The pixels a component recorded on frame f (its frame-f slice). -/
def Component.sliceAt (c : Component) (f : Nat) : List (Nat × Nat) :=
  (c.pixels.filter fun p => p.1 = f).map Prod.snd

/-- Modelled from the spec: an in-frame group matches an open component when
the component's z_max is frame − 1 and some pixel of the group shares its
(x, y) with a pixel of the component's frame − 1 slice. -/
def groupMatches (f : Nat) (g : List (Nat × Nat)) (c : Component) : Bool :=
  (c.zmax + 1 = f) && g.any fun a => (c.sliceAt (f - 1)).any fun b => a = b

/-- Modelled from the spec: steps 2–4 of PixelListLabeller.add for one
in-frame group — union all matching open components with the group (updating
z_max to the current frame), or start a fresh component when none match. -/
def addGroup (f : Nat) (st : List Component) (g : List (Nat × Nat)) :
    List Component :=
  let part := st.partition (groupMatches f g)
  match part.1 with
  | [] => ⟨g.map fun c => (f, c), f, f⟩ :: st
  | matched =>
      ⟨(g.map fun c => (f, c)) ++ (matched.map Component.pixels).flatten,
       (matched.map Component.zmin).foldl min f, f⟩ :: part.2

/-- Modelled from the spec: PixelListLabeller.add — fold the frame's
4-connected groups into the open-component state. -/
def labellerAdd (st : List Component) (f : Nat) (plist : List (Nat × Nat)) :
    List Component :=
  (groupsOf plist).foldl (addGroup f) st

/-- Modelled from the spec: feed per-frame pixel lists to one panel's
labeller in the given delivery order; flush closes every remaining open
component, so the final state is the list of closed components. -/
def labelFrames (pls : List (Nat × List (Nat × Nat))) : List Component :=
  pls.foldl (fun st fp => labellerAdd st fp.1 fp.2) []

/-- A materialized shoebox: owning panel, half-open bounding box
(x0, x1, y0, y1, z0, z1), the recorded pixel coordinates (frame, (x, y))
— the dense mask is nonzero exactly at recorded coordinates — and the
component pixel count reported by spot_size(). -/
structure ShoeboxRec where
  panel : Nat
  x0 : Nat
  x1 : Nat
  y0 : Nat
  y1 : Nat
  z0 : Nat
  z1 : Nat
  pixels : List (Nat × (Nat × Nat))
  size : Nat
deriving DecidableEq, Repr

/-- The z-extent z1 − z0 of a shoebox bounding box, as the signed value the
flex.int6 arithmetic computes. -/
def ShoeboxRec.zExtent (s : ShoeboxRec) : Int :=
  (s.z1 : Int) - (s.z0 : Int)

/-- Modelled from the spec: flex.PixelListShoeboxCreator materializing one
closed component — tight x/y bounding box over its pixels, z-range from the
component, size = pixel count. -/
def mkShoebox (panel : Nat) (c : Component) : ShoeboxRec :=
  let xs := c.pixels.map fun p => p.2.1
  let ys := c.pixels.map fun p => p.2.2
  ⟨panel,
   xs.foldl min (xs.headD 0), xs.foldl max (xs.headD 0) + 1,
   ys.foldl min (ys.headD 0), ys.foldl max (ys.headD 0) + 1,
   c.zmin, c.zmax + 1,
   c.pixels, c.pixels.length⟩

/-- Modelled from the spec: a shoebox is allocated (accepted) iff its
component pixel count lies within [min_spot_size, max_spot_size]. -/
def isAllocated (minSize maxSize : Nat) (s : ShoeboxRec) : Bool :=
  decide (minSize ≤ s.size) && decide (s.size ≤ maxSize)

/-- The per-panel creator output: shoeboxes for every closed component
(creator.result()) and the component sizes (creator.spot_size()). -/
def creatorShoeboxes (panel : Nat) (comps : List Component) : List ShoeboxRec :=
  comps.map (mkShoebox panel)

/-- The selection step of ExtractSpots.__call__: keep allocated shoeboxes. -/
def selectAllocated (minSize maxSize : Nat) (sboxes : List ShoeboxRec) :
    List ShoeboxRec :=
  sboxes.filter (isAllocated minSize maxSize)

/-- Count of components rejected as too small (spotsizes < min_spot_size). -/
def ntoosmall (minSize : Nat) (sizes : List Nat) : Nat :=
  (sizes.filter fun s => decide (s < minSize)).length

/-- Count of components rejected as too large (spotsizes > max_spot_size). -/
def ntoolarge (maxSize : Nat) (sizes : List Nat) : Nat :=
  (sizes.filter fun s => decide (maxSize < s)).length

/-- The creator's spot_size() output: the pixel count of every closed
component, in order. -/
def creatorSpotSizes (comps : List Component) : List Nat :=
  comps.map fun c => c.pixels.length


/-- A hot-pixel mask over all panels: panel index, row y, column x; true =
good pixel.  The source allocates one all-true grid per panel. -/
def HotMask : Type := Nat → Nat → Nat → Bool

/-- Mark one pixel of one panel bad in the hot mask
(hot_mask[p][y, x] = False). -/
def setBad (hm : HotMask) (p y x : Nat) : HotMask :=
  fun p2 y2 x2 => if p2 = p ∧ y2 = y ∧ x2 = x then false else hm p2 y2 x2

/-- The m[:, y:y+1, x:x+1].all_ne(0) test of the hot-mask loop: the shoebox
mask is nonzero at offset (dy, dx) on every frame of the z-range, i.e. the
coordinate was recorded in every frame the shoebox spans. -/
def columnAllNonzero (s : ShoeboxRec) (dy dx : Nat) : Bool :=
  (List.range (s.z1 - s.z0)).all fun dz =>
    decide ((s.z0 + dz, (s.x0 + dx, s.y0 + dy)) ∈ s.pixels)

/-- Pixel (x, y) of panel p lies in the footprint of shoebox s and the
shoebox mask column there is nonzero on every frame of the z-range — exactly
the condition under which the hot-mask loop marks it bad. -/
def coveredBy (s : ShoeboxRec) (p y x : Nat) : Prop :=
  ∃ dy dx, dy < s.y1 - s.y0 ∧ dx < s.x1 - s.x0 ∧ columnAllNonzero s dy dx = true ∧
    p = s.panel ∧ y = s.y0 + dy ∧ x = s.x0 + dx

/-- The nested y/x loop of SpotFinder._find_in_imageset applied to one hot
shoebox: walk the mask footprint and mark (y0+y, x0+x) bad whenever the
whole z-column of the shoebox mask is nonzero. -/
def markShoebox (hm : HotMask) (s : ShoeboxRec) : HotMask :=
  ((List.range (s.y1 - s.y0)).flatMap fun dy =>
      (List.range (s.x1 - s.x0)).map fun dx => (dy, dx)).foldl
    (fun m q =>
      if columnAllNonzero s q.1 q.2 then setBad m s.panel (s.y0 + q.1) (s.x0 + q.2)
      else m) hm

/-- The possible_hot_spots selection of SpotFinder._find_in_imageset:
shoeboxes whose z-extent equals the scan length len(imageset). -/
def possibleHotSpots (scanLength : Nat) (sboxes : List ShoeboxRec) :
    List ShoeboxRec :=
  sboxes.filter fun s => decide (s.zExtent = (scanLength : Int))

/-- The hot-mask derivation of SpotFinder._find_in_imageset: start from
all-true per-panel grids and run the marking loop over every shoebox that
covers the whole scan range. -/
def deriveHotMask (scanLength : Nat) (sboxes : List ShoeboxRec) : HotMask :=
  (possibleHotSpots scanLength sboxes).foldl markShoebox (fun _ _ _ => true)

/-- The per-panel logical AND of two mask stacks, as built by the and_mask
loop of SpotFinder.__call__ (zip over panels, & per pixel). -/
def andMasks (ms hot : List (Nat → Nat → Bool)) : List (Nat → Nat → Bool) :=
  List.zipWith (fun m1 m2 => fun y x => m1 y x && m2 y x) ms hot

/-- The write_hot_mask block of SpotFinder.__call__: given the imageset's
externally supplied static mask slot and the derived hot mask, return the
value stored back into the external mask slot and the value pickled to the
hot-mask file.  Per-panel grids are functions (row, column) → Bool. -/
def hotMaskOutputs (writeHotMask : Bool) (extMask : Option (List (Nat → Nat → Bool)))
    (hotMask : List (Nat → Nat → Bool)) :
    Option (List (Nat → Nat → Bool)) × Option (List (Nat → Nat → Bool)) :=
  if writeHotMask then
    match extMask with
    | some ms => (some (andMasks ms hotMask), some hotMask)
    | none => (some hotMask, some hotMask)
  else (extMask, none)

/-- The dispatch decision of ExtractSpots.__call__: the parallel path with
its callback-ordered merge runs only when more than one process or job is
configured; otherwise frames are processed by the sequential for-loop in
increasing index order.  The parallel merge order is abstracted as the
delivery sequence handed to the labeller. -/
def extractSpotsLabel (nproc njobs : Nat)
    (delivery : List (Nat × List (Nat × Nat)))
    (framesInOrder : List (Nat × List (Nat × Nat))) : List Component :=
  if nproc > 1 || njobs > 1 then labelFrames delivery
  else labelFrames framesInOrder

/-- A 10 × 10 single-panel frame (100 pixels) with an all-valid mask. -/
def frame100 : Frame := ⟨[⟨10, 10, fun _ _ => 0, fun _ _ => true⟩]⟩

/-- A threshold strategy flagging eleven pixels of a 10 × 10 panel. -/
def thresholdEleven : ThresholdFn :=
  fun _ _ _ _ y x => decide (y = 0) || (decide (y = 1) && decide (x = 0))

/-- A threshold strategy flagging ten pixels of a 10 × 10 panel. -/
def thresholdTen : ThresholdFn := fun _ _ _ _ y _ => decide (y = 0)

/-- A threshold strategy flagging every pixel. -/
def thresholdAll : ThresholdFn := fun _ _ _ _ _ _ => true

/-- Extraction configured with max_strong_pixel_fraction 0.1 and the
eleven-pixel threshold. -/
def cfgEleven : ExtractConfig := ⟨none, none, 1/10, thresholdEleven⟩

/-- Extraction configured with max_strong_pixel_fraction 0.1 and the
ten-pixel threshold. -/
def cfgTen : ExtractConfig := ⟨none, none, 1/10, thresholdTen⟩

/-- Extraction configured with max_strong_pixel_fraction 1 and an
everything-is-strong threshold. -/
def cfgFractionOne : ExtractConfig := ⟨none, none, 1, thresholdAll⟩

/-- The pixel lists the eleven-pixel threshold yields on frame100. -/
def plsEleven : List (List (Nat × Nat)) :=
  [pixelsOf 10 10 fun y x => decide (y = 0) || (decide (y = 1) && decide (x = 0))]

/-- The pixel lists the ten-pixel threshold yields on frame100. -/
def plsTen : List (List (Nat × Nat)) :=
  [pixelsOf 10 10 fun y _ => decide (y = 0)]

/-- A 5 × 5 panel with an all-valid mask. -/
def panel25 : PanelData := ⟨5, 5, fun _ _ => 0, fun _ _ => true⟩

/-- A 5 × 5 single-panel frame. -/
def frame25 : Frame := ⟨[panel25]⟩

/-- A configuration whose region of interest (0, 10, 0, 10) violates the
bound x1 ≤ width on a 5 × 5 panel. -/
def cfgBadRoi : ExtractConfig := ⟨none, some (0, 10, 0, 10), 1/10, thresholdTen⟩

/-- The spec's two-frame scenario: frame 0 strong pixels (2,2) and (2,3),
frame 1 strong pixel (2,2); one component spanning the whole scan. -/
def twoFramePls : List (Nat × List (Nat × Nat)) := [(0, [(2, 2), (2, 3)]), (1, [(2, 2)])]

/-- The shoeboxes extracted from the two-frame scenario on panel 0. -/
def twoFrameSboxes : List ShoeboxRec := creatorShoeboxes 0 (labelFrames twoFramePls)

/-- Three frames each holding the single strong pixel (0, 0). -/
def threeFramePls : List (Nat × List (Nat × Nat)) :=
  [(0, [(0, 0)]), (1, [(0, 0)]), (2, [(0, 0)])]

/-- The same three frames delivered out of order (frame 2 before frame 1). -/
def threeFramePlsPerm : List (Nat × List (Nat × Nat)) :=
  [(0, [(0, 0)]), (2, [(0, 0)]), (1, [(0, 0)])]

/-- Components of sizes 1, 2 and 11 for the size-filter scenario. -/
def sizeScenarioComps : List Component :=
  [⟨[(0, (4, 4))], 0, 0⟩,
   ⟨[(0, (0, 0)), (0, (0, 1))], 0, 0⟩,
   ⟨(List.range 11).map fun i => (0, (6 + i, 2)), 0, 0⟩]

/-- A concrete externally supplied static mask (single panel). -/
def extMaskPanel : Nat → Nat → Bool := fun y x => decide (y ≠ 1) || decide (x ≠ 2)

/-- A concrete derived hot-pixel mask (single panel). -/
def hotMaskPanel : Nat → Nat → Bool := fun y x => decide (y ≠ 3) || decide (x ≠ 4)

/-- A shoebox with z-extent 2, one less than a scan length of 3. -/
def sboxExtentTwo : ShoeboxRec :=
  ⟨0, 2, 3, 2, 4, 0, 2, [(1, (2, 2)), (0, (2, 3)), (0, (2, 2))], 3⟩

/-- Claim C3: a shoebox is selected as a hot-pixel candidate iff its z-extent
z1 − z0 equals the scan length exactly; a shoebox of z-extent one less than
the scan length is never selected. -/
theorem C3_hot_candidate_iff (L : Nat) (sboxes : List ShoeboxRec) (s : ShoeboxRec) :
    (s ∈ possibleHotSpots L sboxes ↔ s ∈ sboxes ∧ s.zExtent = (L : Int)) ∧
    (s.zExtent = (L : Int) - 1 → s ∉ possibleHotSpots L sboxes) := by
  constructor
  · simp [possibleHotSpots, List.mem_filter]
  · intro h hmem
    rw [possibleHotSpots, List.mem_filter] at hmem
    have h2 := of_decide_eq_true hmem.2
    omega

/-- Witness for C3: a shoebox spanning frames 0–2 of a 3-frame scan
(z-extent 2 = scan length − 1) is not selected as a hot-pixel candidate. -/
theorem C3_witness : sboxExtentTwo ∉ possibleHotSpots 3 [sboxExtentTwo] :=
  (C3_hot_candidate_iff 3 [sboxExtentTwo] sboxExtentTwo).2 (by decide)

/-- Claim C4 (amended): with worker and job counts both 1 the dispatch takes
the sequential path, so the labellers receive the frames in increasing frame
order regardless of any parallel delivery order. -/
theorem C4_sequential_single (nproc njobs : Nat)
    (delivery framesInOrder : List (Nat × List (Nat × Nat)))
    (h1 : nproc = 1) (h2 : njobs = 1) :
    extractSpotsLabel nproc njobs delivery framesInOrder = labelFrames framesInOrder := by
  subst h1; subst h2
  simp [extractSpotsLabel]

/-- Witness for C4: with 1 process and 1 job, a permuted delivery order is
ignored and the in-order frames are labelled. -/
theorem C4_witness :
    extractSpotsLabel 1 1 threeFramePlsPerm threeFramePls = labelFrames threeFramePls :=
  C4_sequential_single 1 1 threeFramePlsPerm threeFramePls rfl rfl

/-- Counterexample for C4 as stated: a complete but reordered delivery of the
same three frames (frame 2 before frame 1) produces a different labelling
output than strictly sequential in-frame-order delivery. -/
theorem C4_counterexample :
    extractSpotsLabel 2 1 threeFramePlsPerm threeFramePls ≠ labelFrames threeFramePls := by
  decide

/-- Claim C8: when an external static mask exists, the hot-mask file receives
the newly derived hot mask alone, while the imageset's mask attribute
receives the AND with the static mask. -/
theorem C8_written_mask_underived (ms hot : List (Nat → Nat → Bool)) :
    (hotMaskOutputs true (some ms) hot).2 = some hot ∧
    (hotMaskOutputs true (some ms) hot).1 = some (andMasks ms hot) :=
  ⟨rfl, rfl⟩

/-- Panel i of the AND of two mask stacks is the pointwise AND of panel i of
each stack. -/
theorem andMasks_get (ms hot : List (Nat → Nat → Bool)) (i : Nat)
    (m1 m2 : Nat → Nat → Bool) (h1 : ms.get? i = some m1) (h2 : hot.get? i = some m2) :
    (andMasks ms hot).get? i = some fun y x => m1 y x && m2 y x := by
  induction ms generalizing hot i with
  | nil => simp at h1
  | cons a as ih =>
    cases hot with
    | nil => simp at h2
    | cons b bs =>
      cases i with
      | zero =>
        simp only [List.get?] at h1 h2
        cases h1; cases h2
        rfl
      | succ n =>
        simp only [List.get?] at h1 h2
        simpa [andMasks] using ih bs n h1 h2

/-- Claim C7: when an external static mask exists, the mask set on the
imageset's external mask slot is the per-panel logical AND of the static
mask and the derived hot mask, so a pixel bad in either is bad there. -/
theorem C7_emitted_mask_is_and (ms hot : List (Nat → Nat → Bool)) (i : Nat)
    (m1 m2 : Nat → Nat → Bool) (h1 : ms.get? i = some m1) (h2 : hot.get? i = some m2) :
    (hotMaskOutputs true (some ms) hot).1 = some (andMasks ms hot) ∧
    ∃ ma, (andMasks ms hot).get? i = some ma ∧
      ∀ y x, (ma y x = false ↔ (m1 y x = false ∨ m2 y x = false)) := by
  refine ⟨rfl, fun y x => m1 y x && m2 y x, andMasks_get ms hot i m1 m2 h1 h2, ?_⟩
  intro y x
  cases hv1 : m1 y x <;> cases hv2 : m2 y x <;> simp [hv1, hv2]

/-- Witness for C7: the emitted single-panel mask is the AND of the concrete
static mask and the concrete hot mask. -/
theorem C7_witness :
    (hotMaskOutputs true (some [extMaskPanel]) [hotMaskPanel]).1 =
      some (andMasks [extMaskPanel] [hotMaskPanel]) ∧
    ∃ ma, (andMasks [extMaskPanel] [hotMaskPanel]).get? 0 = some ma ∧
      ∀ y x, (ma y x = false ↔ (extMaskPanel y x = false ∨ hotMaskPanel y x = false)) :=
  C7_emitted_mask_is_and [extMaskPanel] [hotMaskPanel] 0 extMaskPanel hotMaskPanel rfl rfl

/-- Claim C2: with 0 < max_strong_pixel_fraction < 1, a frame whose
thresholding succeeds fails fatally exactly when the total strong-pixel
count across all panels exceeds ceil(fraction * total pixels). -/
theorem C2_overflow_guard (cfg : ExtractConfig) (fr : Frame)
    (pls : List (List (Nat × Nat))) (hok : thresholdPhase cfg fr = Except.ok pls)
    ( _hpos : 0 < cfg.maxStrongPixelFraction) (hlt : cfg.maxStrongPixelFraction < 1) :
    (extractCall cfg fr = Except.error ExtractError.overflowError ↔
      (numStrong pls : ℤ) > ⌈cfg.maxStrongPixelFraction * (numImage fr : ℚ)⌉) := by
  simp only [extractCall, hok]
  rw [if_pos hlt]
  by_cases hgt : (numStrong pls : ℤ) > ⌈cfg.maxStrongPixelFraction * (numImage fr : ℚ)⌉
  · rw [if_pos hgt]
    simp [hgt]
  · rw [if_neg hgt]
    simp [hgt]

/-- The rational 1/10 is strictly positive. -/
theorem fractionTenthPos : (0 : ℚ) < 1/10 := by norm_num

/-- The rational 1/10 is strictly below one. -/
theorem fractionTenthLtOne : (1 : ℚ)/10 < 1 := by norm_num

/-- The overflow threshold for fraction 1/10 on a 100-pixel image is 10. -/
theorem ceilTenthHundred : ⌈((1 : ℚ)/10) * (((100 : Nat)) : ℚ)⌉ = 10 := by
  have h : ((1 : ℚ)/10) * (((100 : Nat)) : ℚ) = ((10 : Nat) : ℚ) := by norm_num
  rw [h, Int.ceil_natCast]
  norm_num

/-- Witness for C2: the spec scenario — fraction 0.1 on a 100-pixel image;
eleven strong pixels abort, ten do not. -/
theorem C2_witness :
    extractCall cfgEleven frame100 = Except.error ExtractError.overflowError ∧
    extractCall cfgTen frame100 ≠ Except.error ExtractError.overflowError := by
  have hiff1 := C2_overflow_guard cfgEleven frame100 plsEleven rfl
    fractionTenthPos fractionTenthLtOne
  have hiff2 := C2_overflow_guard cfgTen frame100 plsTen rfl
    fractionTenthPos fractionTenthLtOne
  constructor
  · refine hiff1.mpr ?_
    show (((11 : Nat)) : ℤ) > ⌈((1 : ℚ)/10) * (((100 : Nat)) : ℚ)⌉
    rw [ceilTenthHundred]
    decide
  · intro h
    have hgt := hiff2.mp h
    have hnot : ¬ ((((10 : Nat)) : ℤ) > ⌈((1 : ℚ)/10) * (((100 : Nat)) : ℚ)⌉) := by
      rw [ceilTenthHundred]
      decide
    exact hnot hgt

/-- The per-panel threshold step can only fail with an ROI error. -/
theorem panelPixelList_no_overflow (cfg : ExtractConfig) (p : PanelData)
    (mk : Nat → Nat → Bool) :
    panelPixelList cfg p mk ≠ Except.error ExtractError.overflowError := by
  unfold panelPixelList
  split
  · split
    · simp
    · simp
  · simp

/-- The panel loop never reports a strong-pixel overflow by itself. -/
theorem panelsPixels_no_overflow (cfg : ExtractConfig)
    (l : List (PanelData × (Nat → Nat → Bool))) :
    panelsPixels cfg l ≠ Except.error ExtractError.overflowError := by
  induction l with
  | nil => simp [panelsPixels]
  | cons pm rest ih =>
    unfold panelsPixels
    cases hpl : panelPixelList cfg pm.1 pm.2 with
    | error e =>
      have hne := panelPixelList_no_overflow cfg pm.1 pm.2
      rw [hpl] at hne
      simpa using hne
    | ok l1 =>
      cases hrest : panelsPixels cfg rest with
      | error e =>
        rw [hrest] at ih
        simpa using ih
      | ok ls => simp

/-- Combining the static mask can only fail with a panel-count error. -/
theorem combinedMasks_no_overflow (cfg : ExtractConfig) (fr : Frame) :
    combinedMasks cfg fr ≠ Except.error ExtractError.overflowError := by
  unfold combinedMasks
  split
  · simp
  · split
    · simp
    · simp

/-- The whole threshold phase never reports a strong-pixel overflow. -/
theorem thresholdPhase_no_overflow (cfg : ExtractConfig) (fr : Frame) :
    thresholdPhase cfg fr ≠ Except.error ExtractError.overflowError := by
  unfold thresholdPhase
  cases hcm : combinedMasks cfg fr with
  | error e =>
    have hne := combinedMasks_no_overflow cfg fr
    rw [hcm] at hne
    simpa using hne
  | ok ms => exact panelsPixels_no_overflow cfg (fr.panels.zip ms)

/-- Claim C9: when max_strong_pixel_fraction ≥ 1 the overflow guard is never
evaluated, so extraction never fails with the overflow error however many
strong pixels are found. -/
theorem C9_guard_disabled (cfg : ExtractConfig) (fr : Frame)
    (h : 1 ≤ cfg.maxStrongPixelFraction) :
    extractCall cfg fr ≠ Except.error ExtractError.overflowError := by
  cases htp : thresholdPhase cfg fr with
  | error e =>
    have hne := thresholdPhase_no_overflow cfg fr
    rw [htp] at hne
    simp only [extractCall, htp]
    simpa using hne
  | ok pls =>
    simp only [extractCall, htp]
    rw [if_neg (not_lt.mpr h)]
    simp

/-- Witness for C9: with fraction exactly 1 and a threshold flagging all 25
pixels of a 5 × 5 frame as strong, extraction does not hit the guard. -/
theorem C9_witness :
    extractCall cfgFractionOne frame25 ≠ Except.error ExtractError.overflowError :=
  C9_guard_disabled cfgFractionOne frame25 (by norm_num [cfgFractionOne])

/-- Claim C6 (amended): invalid ROI bounds pass construction-time validation
unexamined and are detected as a fatal error inside the per-frame extraction
call, when a frame is processed. -/
theorem C6_roi_checked_per_frame (cfg : ExtractConfig) (fr : Frame)
    (roi : Nat × Nat × Nat × Nat) (p : PanelData) (rest : List PanelData) (n : Nat)
    (hsm : cfg.staticMask = none) (hroi : cfg.regionOfInterest = some roi)
    (hp : fr.panels = p :: rest) (hbad : roiValid roi p.width p.height = false) :
    extractInit cfg n = Except.ok () ∧
    extractCall cfg fr = Except.error ExtractError.roiError := by
  constructor
  · unfold extractInit
    rw [hsm]
  · have hcm : combinedMasks cfg fr = Except.ok (fr.panels.map PanelData.mask) := by
      unfold combinedMasks
      rw [hsm]
    have hppl : panelPixelList cfg p p.mask = Except.error ExtractError.roiError := by
      simp only [panelPixelList, hroi]
      rw [hbad]
      simp
    simp only [extractCall, thresholdPhase, hcm, hp, List.map_cons, List.zip_cons_cons,
      panelsPixels, hppl]

/-- Counterexample for C6 as stated: a configuration whose ROI violates
x1 ≤ width on a 5 × 5 panel passes construction-time validation (no eager
detection); the error only surfaces when a frame is extracted. -/
theorem C6_counterexample :
    extractInit cfgBadRoi 1 = Except.ok () ∧
    roiValid (0, 10, 0, 10) panel25.width panel25.height = false ∧
    extractCall cfgBadRoi frame25 = Except.error ExtractError.roiError :=
  ⟨rfl, by decide, rfl⟩

/-- Witness for C6 (amended): the invalid-ROI configuration fails on the
first extraction call of the 5 × 5 frame. -/
theorem C6_witness :
    extractInit cfgBadRoi 1 = Except.ok () ∧
    extractCall cfgBadRoi frame25 = Except.error ExtractError.roiError :=
  C6_roi_checked_per_frame cfgBadRoi frame25 (0, 10, 0, 10) panel25 [] 1
    rfl rfl rfl (by decide)

/-- The shoebox materialized from a component reports the component's pixel
count as its size. -/
theorem mkShoebox_size (panel : Nat) (c : Component) :
    (mkShoebox panel c).size = c.pixels.length := rfl

/-- The allocation test on a materialized shoebox is the inclusive size-range
test on the component's pixel count. -/
theorem isAllocated_mkShoebox (minS maxS panel : Nat) (c : Component) :
    isAllocated minS maxS (mkShoebox panel c) =
      (decide (minS ≤ c.pixels.length) && decide (c.pixels.length ≤ maxS)) := rfl

/-- With min ≤ max, the too-small, too-large and in-range counts of a size
list partition it. -/
theorem sizeCountsAux (minS maxS : Nat) (hms : minS ≤ maxS) (sizes : List Nat) :
    (sizes.filter fun s => decide (s < minS)).length +
      (sizes.filter fun s => decide (maxS < s)).length +
      (sizes.filter fun s => decide (minS ≤ s) && decide (s ≤ maxS)).length =
      sizes.length := by
  induction sizes with
  | nil => rfl
  | cons a l ih =>
    simp only [List.filter_cons]
    by_cases h1 : a < minS
    · have h2 : ¬ maxS < a := by omega
      have h3 : ¬ minS ≤ a := by omega
      simp [h1, h2, h3]
      omega
    · by_cases h2 : maxS < a
      · have h3 : ¬ a ≤ maxS := by omega
        simp [h1, h2, h3]
        omega
      · have h3 : minS ≤ a := by omega
        have h4 : a ≤ maxS := by omega
        simp [h1, h2, h3, h4]
        omega

/-- The number of allocated shoeboxes equals the number of component sizes
passing the inclusive range test. -/
theorem selectAllocated_length (minS maxS panel : Nat) (comps : List Component) :
    (selectAllocated minS maxS (creatorShoeboxes panel comps)).length =
      ((creatorSpotSizes comps).filter fun s =>
        decide (minS ≤ s) && decide (s ≤ maxS)).length := by
  induction comps with
  | nil => rfl
  | cons c cs ih =>
    simp only [selectAllocated, creatorShoeboxes, creatorSpotSizes, List.map_cons,
      List.filter_cons, isAllocated_mkShoebox] at ih ⊢
    by_cases h : (decide (minS ≤ c.pixels.length) && decide (c.pixels.length ≤ maxS)) = true
    · simp [h, ih]
    · simp [h, ih]

/-- Claim C5: every accepted shoebox has size within the inclusive bounds,
and too-small + too-large + accepted counts sum to the number of closed
components. -/
theorem C5_size_filter (minS maxS panel : Nat) (comps : List Component)
    (hms : minS ≤ maxS) :
    (∀ s ∈ selectAllocated minS maxS (creatorShoeboxes panel comps),
      minS ≤ s.size ∧ s.size ≤ maxS) ∧
    ntoosmall minS (creatorSpotSizes comps) + ntoolarge maxS (creatorSpotSizes comps) +
      (selectAllocated minS maxS (creatorShoeboxes panel comps)).length = comps.length := by
  constructor
  · intro s hs
    rw [selectAllocated, List.mem_filter] at hs
    have hall := hs.2
    rw [isAllocated] at hall
    simp only [Bool.and_eq_true, decide_eq_true_eq] at hall
    exact hall
  · rw [selectAllocated_length minS maxS panel comps, ntoosmall, ntoolarge]
    have hlen : (creatorSpotSizes comps).length = comps.length := by
      rw [creatorSpotSizes, List.length_map]
    rw [← hlen]
    exact sizeCountsAux minS maxS hms (creatorSpotSizes comps)

/-- Witness for C5: the spec scenario — bounds [2, 10]; components of 1, 2
and 11 pixels give one too-small, one too-large and one accepted. -/
theorem C5_witness :
    (∀ s ∈ selectAllocated 2 10 (creatorShoeboxes 0 sizeScenarioComps),
      2 ≤ s.size ∧ s.size ≤ 10) ∧
    ntoosmall 2 (creatorSpotSizes sizeScenarioComps) +
      ntoolarge 10 (creatorSpotSizes sizeScenarioComps) +
      (selectAllocated 2 10 (creatorShoeboxes 0 sizeScenarioComps)).length =
      sizeScenarioComps.length :=
  C5_size_filter 2 10 0 sizeScenarioComps (by decide)

/-- Folding min over a list never exceeds the starting value. -/
theorem foldl_min_le_init (l : List Nat) (a : Nat) : l.foldl min a ≤ a := by
  induction l generalizing a with
  | nil => exact Nat.le_refl a
  | cons b bs ih => exact Nat.le_trans (ih (min a b)) (Nat.min_le_left a b)

/-- One addGroup step preserves the invariant zmin ≤ zmax on every open
component. -/
theorem addGroup_zinv (f : Nat) (st : List Component) (g : List (Nat × Nat))
    (hst : ∀ c ∈ st, c.zmin ≤ c.zmax) :
    ∀ c ∈ addGroup f st g, c.zmin ≤ c.zmax := by
  intro c hc
  simp only [addGroup] at hc
  cases hpart : (st.partition (groupMatches f g)).1 with
  | nil =>
    rw [hpart] at hc
    rcases List.mem_cons.mp hc with h | h
    · subst h
      exact Nat.le_refl f
    · exact hst c h
  | cons m ms =>
    rw [hpart] at hc
    rcases List.mem_cons.mp hc with h | h
    · subst h
      exact foldl_min_le_init ((m :: ms).map Component.zmin) f
    · have hsub : c ∈ st := by
        have hp2 : (st.partition (groupMatches f g)).2 =
            st.filter (not ∘ groupMatches f g) := by
          rw [List.partition_eq_filter_filter]
        rw [hp2] at h
        exact List.mem_of_mem_filter h
      exact hst c hsub

/-- One labeller add call preserves the invariant zmin ≤ zmax. -/
theorem labellerAdd_zinv (st : List Component) (f : Nat) (pl : List (Nat × Nat))
    (hst : ∀ c ∈ st, c.zmin ≤ c.zmax) :
    ∀ c ∈ labellerAdd st f pl, c.zmin ≤ c.zmax := by
  unfold labellerAdd
  generalize groupsOf pl = gs
  induction gs generalizing st with
  | nil => exact hst
  | cons g gs ih =>
    rw [List.foldl_cons]
    exact ih (addGroup f st g) (addGroup_zinv f st g hst)

/-- Every component left open after any delivery sequence satisfies
zmin ≤ zmax. -/
theorem labelFrames_go_zinv (pls : List (Nat × List (Nat × Nat)))
    (st0 : List Component) (h0 : ∀ c ∈ st0, c.zmin ≤ c.zmax) :
    ∀ c ∈ pls.foldl (fun st fp => labellerAdd st fp.1 fp.2) st0, c.zmin ≤ c.zmax := by
  induction pls generalizing st0 with
  | nil => exact h0
  | cons fp rest ih =>
    rw [List.foldl_cons]
    exact ih (labellerAdd st0 fp.1 fp.2) (labellerAdd_zinv st0 fp.1 fp.2 h0)

/-- Every closed component of a labelling run satisfies zmin ≤ zmax. -/
theorem labelFrames_zinv (pls : List (Nat × List (Nat × Nat))) :
    ∀ c ∈ labelFrames pls, c.zmin ≤ c.zmax :=
  labelFrames_go_zinv pls [] (by simp)

/-- Claim C10: every shoebox materialized from a labelling run has strictly
positive z-extent, so the zr.all_gt(0) assertion before hot-spot selection
holds. -/
theorem C10_zextent_positive (pls : List (Nat × List (Nat × Nat))) (panel : Nat)
    (s : ShoeboxRec) (hs : s ∈ creatorShoeboxes panel (labelFrames pls)) :
    0 < s.zExtent := by
  rw [creatorShoeboxes, List.mem_map] at hs
  obtain ⟨c, hc, rfl⟩ := hs
  have hz := labelFrames_zinv pls c hc
  show 0 < ((c.zmax + 1 : Nat) : Int) - ((c.zmin : Nat) : Int)
  omega

/-- Witness for C10: the shoebox of the two-frame scenario has z-extent 2. -/
theorem C10_witness : 0 < sboxExtentTwo.zExtent :=
  C10_zextent_positive twoFramePls 0 sboxExtentTwo (by decide)

/-- A setBad update reads false exactly at the written point or where the
previous mask already read false. -/
theorem setBad_false_iff (hm : HotMask) (p y x p2 y2 x2 : Nat) :
    (setBad hm p y x p2 y2 x2 = false ↔
      (hm p2 y2 x2 = false ∨ (p2 = p ∧ y2 = y ∧ x2 = x))) := by
  unfold setBad
  split
  · simp [*]
  · simp [*]

/-- The inner marking fold of one shoebox reads false exactly where the
incoming mask read false or some visited offset with an all-nonzero column
targets the point. -/
theorem foldl_mark_false_iff (s : ShoeboxRec) (l : List (Nat × Nat)) (hm : HotMask)
    (p y x : Nat) :
    ((l.foldl (fun m q => if columnAllNonzero s q.1 q.2 then
        setBad m s.panel (s.y0 + q.1) (s.x0 + q.2) else m) hm) p y x = false ↔
      (hm p y x = false ∨ ∃ q ∈ l, columnAllNonzero s q.1 q.2 = true ∧
        p = s.panel ∧ y = s.y0 + q.1 ∧ x = s.x0 + q.2)) := by
  induction l generalizing hm with
  | nil => simp
  | cons q l ih =>
    rw [List.foldl_cons, ih]
    by_cases hc : columnAllNonzero s q.1 q.2 = true
    · rw [if_pos hc, setBad_false_iff]
      simp only [List.mem_cons]
      constructor
      · rintro ((h | ⟨hp, hy, hx⟩) | ⟨q2, hq2, h3⟩)
        · exact Or.inl h
        · exact Or.inr ⟨q, Or.inl rfl, hc, hp, hy, hx⟩
        · exact Or.inr ⟨q2, Or.inr hq2, h3⟩
      · rintro (h | ⟨q2, hq2 | hq2, h3⟩)
        · exact Or.inl (Or.inl h)
        · subst hq2
          exact Or.inl (Or.inr ⟨h3.2.1, h3.2.2.1, h3.2.2.2⟩)
        · exact Or.inr ⟨q2, hq2, h3⟩
    · rw [if_neg hc]
      simp only [List.mem_cons]
      constructor
      · rintro (h | ⟨q2, hq2, h3⟩)
        · exact Or.inl h
        · exact Or.inr ⟨q2, Or.inr hq2, h3⟩
      · rintro (h | ⟨q2, hq2 | hq2, h3⟩)
        · exact Or.inl h
        · subst hq2
          exact absurd h3.1 hc
        · exact Or.inr ⟨q2, hq2, h3⟩

/-- Membership in the flattened y/x loop-index grid is exactly the pair of
range bounds. -/
theorem mem_grid_iff (ydim xdim : Nat) (q : Nat × Nat) :
    (q ∈ ((List.range ydim).flatMap fun dy =>
        (List.range xdim).map fun dx => (dy, dx)) ↔
      (q.1 < ydim ∧ q.2 < xdim)) := by
  cases q with
  | mk dy dx =>
    simp only [List.mem_flatMap, List.mem_map, List.mem_range]
    constructor
    · rintro ⟨a, ha, b, hb, heq⟩
      cases heq
      exact ⟨ha, hb⟩
    · rintro ⟨h1, h2⟩
      exact ⟨dy, h1, dx, h2, rfl⟩

/-- Marking one shoebox reads false exactly where the incoming mask read
false or the shoebox covers the point with an all-nonzero mask column. -/
theorem markShoebox_false_iff (hm : HotMask) (s : ShoeboxRec) (p y x : Nat) :
    (markShoebox hm s p y x = false ↔ (hm p y x = false ∨ coveredBy s p y x)) := by
  unfold markShoebox
  rw [foldl_mark_false_iff]
  unfold coveredBy
  constructor
  · rintro (h | ⟨q, hq, hcol, hp, hy, hx⟩)
    · exact Or.inl h
    · have hb := (mem_grid_iff _ _ q).mp hq
      exact Or.inr ⟨q.1, q.2, hb.1, hb.2, hcol, hp, hy, hx⟩
  · rintro (h | ⟨dy, dx, h1, h2, h3, h4, h5, h6⟩)
    · exact Or.inl h
    · exact Or.inr ⟨(dy, dx), (mem_grid_iff _ _ _).mpr ⟨h1, h2⟩, h3, h4, h5, h6⟩

/-- The marking fold over a shoebox list reads false exactly where the
initial mask read false or some listed shoebox covers the point. -/
theorem foldl_markShoebox_false_iff (l : List ShoeboxRec) (hm : HotMask)
    (p y x : Nat) :
    ((l.foldl markShoebox hm) p y x = false ↔
      (hm p y x = false ∨ ∃ s ∈ l, coveredBy s p y x)) := by
  induction l generalizing hm with
  | nil => simp
  | cons s l ih =>
    rw [List.foldl_cons, ih, markShoebox_false_iff]
    simp only [List.mem_cons]
    constructor
    · rintro ((h | h) | ⟨s2, hs2, h3⟩)
      · exact Or.inl h
      · exact Or.inr ⟨s, Or.inl rfl, h⟩
      · exact Or.inr ⟨s2, Or.inr hs2, h3⟩
    · rintro (h | ⟨s2, hs2 | hs2, h3⟩)
      · exact Or.inl (Or.inl h)
      · subst hs2
        exact Or.inl (Or.inr h3)
      · exact Or.inr ⟨s2, hs2, h3⟩

/-- Claim C1 (amended): the derived hot mask reads false at a pixel iff some
full-scan candidate shoebox covers it with a mask column nonzero on every
frame of its z-range; in particular a pixel recorded by no candidate stays
true. -/
theorem C1_hotmask_characterization (L : Nat) (sboxes : List ShoeboxRec)
    (p y x : Nat) :
    (deriveHotMask L sboxes p y x = false ↔
      ∃ s ∈ sboxes, s.zExtent = (L : Int) ∧ coveredBy s p y x) ∧
    (0 < L → (∀ s ∈ sboxes, s.zExtent = (L : Int) → (x, y) ∉ s.pixels.map Prod.snd) →
      deriveHotMask L sboxes p y x = true) := by
  have hmain : deriveHotMask L sboxes p y x = false ↔
      ∃ s ∈ sboxes, s.zExtent = (L : Int) ∧ coveredBy s p y x := by
    unfold deriveHotMask
    rw [foldl_markShoebox_false_iff]
    simp only [possibleHotSpots, List.mem_filter, decide_eq_true_eq]
    constructor
    · rintro (h | ⟨s, ⟨hs, hz⟩, hcov⟩)
      · simp at h
      · exact ⟨s, hs, hz, hcov⟩
    · rintro ⟨s, hs, hz, hcov⟩
      exact Or.inr ⟨s, ⟨hs, hz⟩, hcov⟩
  refine ⟨hmain, ?_⟩
  intro hL hnone
  by_contra hfalse
  have hf : deriveHotMask L sboxes p y x = false := by
    cases hd : deriveHotMask L sboxes p y x
    · rfl
    · exact absurd hd hfalse
  obtain ⟨s, hs, hz, dy, dx, hdy, hdx, hcol, hp, hy, hx⟩ := hmain.mp hf
  have hzr : 0 < s.z1 - s.z0 := by
    unfold ShoeboxRec.zExtent at hz
    omega
  have hmem0 : (0 : Nat) ∈ List.range (s.z1 - s.z0) := List.mem_range.mpr hzr
  have hcol2 := List.all_eq_true.mp hcol 0 hmem0
  have hpix : (s.z0 + 0, (s.x0 + dx, s.y0 + dy)) ∈ s.pixels := of_decide_eq_true hcol2
  have hxy : (x, y) ∈ s.pixels.map Prod.snd := by
    rw [hx, hy]
    exact List.mem_map.mpr ⟨(s.z0 + 0, (s.x0 + dx, s.y0 + dy)), hpix, rfl⟩
  exact hnone s hs hz hxy

/-- Witness for C1 (amended): pixel (9, 9) is recorded by no candidate of
the two-frame scenario and stays true in the derived hot mask. -/
theorem C1_witness : deriveHotMask 2 twoFrameSboxes 0 9 9 = true :=
  (C1_hotmask_characterization 2 twoFrameSboxes 0 9 9).2 (by decide) (by decide)

/-- Counterexample for C1 as stated: in the two-frame scenario the candidate
component records pixel (2, 3) on frame 0 only, and the derived hot mask
leaves that pixel true instead of marking it false. -/
theorem C1_counterexample :
    (∃ s ∈ twoFrameSboxes, s.zExtent = (2 : Int) ∧ (0, (2, 3)) ∈ s.pixels) ∧
    deriveHotMask 2 twoFrameSboxes 0 3 2 = true := by
  constructor
  · decide
  · decide

end SpotFinding
